import Mathlib

/-!
# Verification of the stock-analyzer backend

Shallow embedding of `src/backend/index.js` (an Express server proxying the
Polygon market-data API and the Gemini AI API) together with proofs about the
request/response contracts documented in the specification.

Conventions of the embedding:
* JSON numbers are modelled as `ℚ`; an optional JSON field is an `Option`.
* JavaScript's `x || y` on an optional number is `jsOrQ` (0 and `undefined`
  are falsy); on an optional string it is `jsOrStr` (the empty string is
  falsy).
* An upstream HTTP call is an `Except` value supplied as an argument to the
  handler model: `Except.error e` models a rejected promise, where `e` is the
  data the `catch` block inspects (for axios: the optional HTTP status of
  `err.response`).
* A handler is a pure function from its inputs (path/query parameters and the
  upstream responses) to an HTTP outcome; where a claim is about which
  upstream calls are issued, the handler model also returns the number of
  upstream calls it performed.
-/

namespace StockAnalyzer

/-- JavaScript `a || b` where `a` is a number-or-undefined expression:
`undefined` and `0` are falsy, any other number is returned unchanged. -/
def jsOrQ (a : Option ℚ) (b : ℚ) : ℚ :=
  match a with
  | none => b
  | some x => if x = 0 then b else x

/-- JavaScript `a || b` where `a` is a string-or-undefined expression:
`undefined` and `""` are falsy. -/
def jsOrStr (a : Option String) (b : String) : String :=
  match a with
  | none => b
  | some s => if s = "" then b else s

/-- JavaScript `s.trim()`: strip whitespace from both ends. -/
def jsTrim (s : String) : String :=
  ⟨((s.data.dropWhile Char.isWhitespace).reverse.dropWhile Char.isWhitespace).reverse⟩

/-- JavaScript `s.toUpperCase()` (on the ASCII symbols and range strings the
handlers deal with). -/
def jsToUpper (s : String) : String := ⟨s.data.map Char.toUpper⟩

/-! ## Snapshot data (Polygon `/v2/snapshot/.../tickers/{T}`) -/

/-- One aggregate bar object inside a snapshot (`day`, `min`, `prevDay`):
open, high, low, close, volume, each possibly absent. -/
structure Bar where
  o : Option ℚ
  h : Option ℚ
  l : Option ℚ
  c : Option ℚ
  v : Option ℚ
deriving DecidableEq, Repr

/-- The `{}` object substituted by `snapshot.day || {}` / `snapshot.min || {}`. -/
def Bar.empty : Bar := ⟨none, none, none, none, none⟩

/-- The `ticker` object of a snapshot response body.  Every field is optional,
mirroring the keys that may or may not be present on the JSON object. -/
structure Snapshot where
  ticker : Option String
  day : Option Bar
  min : Option Bar
  prevDay : Option Bar
  todaysChange : Option ℚ
  todaysChangePerc : Option ℚ
deriving DecidableEq, Repr

/-- Number of keys present on the snapshot object: the model of
`Object.keys(snapshot).length`. -/
def Snapshot.keyCount (s : Snapshot) : Nat :=
  (if s.ticker.isSome then 1 else 0) + (if s.day.isSome then 1 else 0) +
  (if s.min.isSome then 1 else 0) + (if s.prevDay.isSome then 1 else 0) +
  (if s.todaysChange.isSome then 1 else 0) +
  (if s.todaysChangePerc.isSome then 1 else 0)

/-! ## Symbol validation (GET /api/quote/:symbol only)

`param('symbol').isAlphanumeric().isLength({ min: 1, max: 10 })
   .withMessage('Invalid stock symbol')` -/

/-- validator.js `isAlphanumeric` (default locale): every character is
`A–Z`, `a–z` or `0–9`, and the string is non-empty. -/
def isAlphanumericStr (s : String) : Bool :=
  s ≠ "" && s.toList.all (fun c => c.isAlpha || c.isDigit)

/-- The validation chain attached to `GET /api/quote/:symbol`:
alphanumeric and of length 1–10. -/
def validateSymbol (s : String) : Bool :=
  isAlphanumericStr s && decide (1 ≤ s.length) && decide (s.length ≤ 10)

/-- express-validator's default failure message, carried by the
`isAlphanumeric` validator, which has no `withMessage` of its own. -/
def defaultValidatorMsg : String := "Invalid value"

/-- The text `withMessage('Invalid stock symbol')` attaches to the
immediately preceding validator of the chain, `isLength`. -/
def invalidSymbolMsg : String := "Invalid stock symbol"

/-- `errors.array()[0].msg`: the chain runs `isAlphanumeric` before
`isLength`, so the first failure's message is the default "Invalid value"
when the symbol is not alphanumeric, and the `withMessage` text when it is
alphanumeric but of invalid length; `none` when the symbol is valid. -/
def firstValidationMsg (s : String) : Option String :=
  if isAlphanumericStr s = false then some defaultValidatorMsg
  else if (decide (1 ≤ s.length) && decide (s.length ≤ 10)) = false then
    some invalidSymbolMsg
  else none

/-! ## GET /api/quote/:symbol -/

/-- The outward HTTP outcome of the quote handler, together with the number of
upstream calls the handler issued before responding. -/
structure QuoteOut where
  status : Nat
  errorMsg : Option String
  symbol : Option String
  priceOpen : ℚ
  priceHigh : ℚ
  priceLow : ℚ
  priceClose : ℚ
  volumeOut : ℚ
  upstreamCalls : Nat
deriving DecidableEq, Repr

/-- `catch (err)` of the single-resource handlers:
`err.response && err.response.status === 404` yields 404, anything else 500.
The argument is the optional HTTP status of `err.response`. -/
def catchStatus (e : Option Nat) : Nat :=
  if e = some 404 then 404 else 500

/-- The body message of the quote handler's `catch` block: "Stock not found"
on an upstream 404, the generic failure message otherwise. -/
def catchErrMsg (e : Option Nat) : String :=
  if e = some 404 then "Stock not found" else "Failed to fetch quote from Polygon"

/-- The ticker embedded in the upstream snapshot/metadata URLs:
`symbol.toUpperCase()`. -/
def quoteRequestTicker (symbol : String) : String := jsToUpper symbol

/-- The field-selection chains of the quote handler, e.g.
`const open = day.o || min.o || 0;` with `day = snapshot.day || {}` and
`min = snapshot.min || {}`. -/
def quoteOpen (s : Snapshot) : ℚ :=
  jsOrQ (s.day.getD Bar.empty).o (jsOrQ (s.min.getD Bar.empty).o 0)

def quoteHigh (s : Snapshot) : ℚ :=
  jsOrQ (s.day.getD Bar.empty).h (jsOrQ (s.min.getD Bar.empty).h 0)

def quoteLow (s : Snapshot) : ℚ :=
  jsOrQ (s.day.getD Bar.empty).l (jsOrQ (s.min.getD Bar.empty).l 0)

def quoteClose (s : Snapshot) : ℚ :=
  jsOrQ (s.day.getD Bar.empty).c (jsOrQ (s.min.getD Bar.empty).c 0)

def quoteVolume (s : Snapshot) : ℚ :=
  jsOrQ (s.day.getD Bar.empty).v (jsOrQ (s.min.getD Bar.empty).v 0)

/-- The `GET /api/quote/:symbol` handler.  `snapCall` models the awaited
snapshot request (its `data?.ticker` field on success), `metaCall` the
awaited reference-metadata request; an `Except.error` carries the optional
status of `err.response`.  The handler validates first, then awaits the two
calls in order, checks the snapshot for absence/emptiness, and assembles the
response. -/
def quoteHandler (symbol : String) (snapCall : Except (Option Nat) (Option Snapshot))
    (metaCall : Except (Option Nat) Unit) : QuoteOut :=
  if validateSymbol symbol = false then
    ⟨400, firstValidationMsg symbol, none, 0, 0, 0, 0, 0, 0⟩
  else
    match snapCall with
    | .error e => ⟨catchStatus e, some (catchErrMsg e), none, 0, 0, 0, 0, 0, 1⟩
    | .ok snapData =>
      match metaCall with
      | .error e => ⟨catchStatus e, some (catchErrMsg e), none, 0, 0, 0, 0, 0, 2⟩
      | .ok _ =>
        match snapData with
        | none => ⟨404, some "Stock not found or no snapshot data available", none, 0, 0, 0, 0, 0, 2⟩
        | some snapshot =>
          if snapshot.keyCount = 0 then
            ⟨404, some "Stock not found or no snapshot data available", none, 0, 0, 0, 0, 0, 2⟩
          else
            ⟨200, none, snapshot.ticker, quoteOpen snapshot, quoteHigh snapshot,
              quoteLow snapshot, quoteClose snapshot, quoteVolume snapshot, 2⟩

/-! ## News with sentiment (GET /api/news/top and GET /api/news/:symbol) -/

/-- One article of the Polygon news response (`data.results[i]`). -/
structure Article where
  title : String
  article_url : String
  published_utc : Option String
  publisher_name : Option String
deriving DecidableEq, Repr

/-- The outward news item of both news endpoints (the `published` /
`published_utc` naming difference between the two endpoints does not matter
for the claims). -/
structure NewsItem where
  title : String
  url : String
  source : String
  sentiment : String
deriving DecidableEq, Repr

/-- An AI sentiment call for one headline.  `Except.error` models a rejected
`generateContent` promise (handled by the inner `catch`); on success the
`Option String` is the text reached by
`response.candidates?.[0]?.content?.parts?.[0]?.text` (`none` when the
optional chain is undefined, in which case either `|| "Neutral"` or the inner
`catch` — for the `.trim()` TypeError — produces `"Neutral"`). -/
def sentimentOf : Except Unit (Option String) → String
  | .error _ => "Neutral"
  | .ok none => "Neutral"
  | .ok (some t) => if jsTrim t = "" then "Neutral" else jsTrim t

/-- `article.publisher?.name || "Unknown"`. -/
def sourceOf (publisherName : Option String) : String :=
  jsOrStr publisherName "Unknown"

/-- The per-article sub-task of both news endpoints: one AI call, with the
inner `try`/`catch` substituting `"Neutral"` on failure and the text taken
verbatim (trimmed) otherwise. -/
def analyzeArticle (ai : String → Except Unit (Option String)) (a : Article) :
    NewsItem :=
  { title := a.title
    url := a.article_url
    source := sourceOf a.publisher_name
    sentiment := sentimentOf (ai a.title) }

/-- Outcome of a news endpoint: HTTP status plus the item list (empty on
error responses). -/
structure NewsOut where
  status : Nat
  items : List NewsItem
deriving DecidableEq, Repr

/-- The shared shape of `GET /api/news/top` and `GET /api/news/:symbol`:
fetch the article page, 404 when it is empty, otherwise
`Promise.all` over `articles.map(analyze)` — each sub-task carries its own
`catch`, so the join never rejects — and a 200 with the analyzed list. -/
def newsHandler (fetchNews : Except (Option Nat) (List Article))
    (ai : String → Except Unit (Option String)) : NewsOut :=
  match fetchNews with
  | .error _ => ⟨500, []⟩
  | .ok articles =>
    match articles with
    | [] => ⟨404, []⟩
    | _ => ⟨200, articles.map (analyzeArticle ai)⟩

/-! ## GET /api/sectors -/

/-- The fixed sector-representative ETF table of the handler. -/
def sectorETFs : List (String × String) :=
  [("Technology", "XLK"), ("Healthcare", "XLV"), ("Financials", "XLF"),
   ("Energy", "XLE"), ("Consumer Discretionary", "XLY")]

/-- One outward sector entry. -/
structure SectorEntry where
  name : String
  changePercent : ℚ
deriving DecidableEq, Repr

/-- The `Promise.all` join of the sectors handler.  Each sub-task awaits one
snapshot request and has **no** `try`/`catch` of its own, so a single
rejection rejects the whole join (first rejection wins); `fetch` returns the
`todaysChangePerc` of the fetched ticker on success. -/
def collectSectors (fetch : String → Except (Option Nat) (Option ℚ)) :
    List (String × String) → Except (Option Nat) (List SectorEntry)
  | [] => .ok []
  | (name, sym) :: rest =>
    match fetch sym with
    | .error e => .error e
    | .ok cp =>
      match collectSectors fetch rest with
      | .error e => .error e
      | .ok others => .ok (⟨name, cp.getD 0⟩ :: others)

/-- Outcome of the sectors endpoint. -/
structure SectorsOut where
  status : Nat
  entries : List SectorEntry
deriving DecidableEq, Repr

/-- The `GET /api/sectors` handler: the join result is returned with 200;
a rejected join lands in the outer `catch` and yields 500. -/
def sectorsHandler (fetch : String → Except (Option Nat) (Option ℚ)) :
    SectorsOut :=
  match collectSectors fetch sectorETFs with
  | .ok entries => ⟨200, entries⟩
  | .error _ => ⟨500, []⟩

/-! ## GET /api/chart/:symbol -/

/-- One row of the `POLYGON_INTERVALS` table (`from` is called
`fromDays` because `from` is a Lean keyword). -/
structure IntervalCfg where
  multiplier : Nat
  timespan : String
  fromDays : Nat
deriving DecidableEq, Repr

/-- `POLYGON_INTERVALS[range] || POLYGON_INTERVALS["1D"]`: the fixed table,
with the `1D` row substituted for any key that is not present. -/
def POLYGON_INTERVALS (range : String) : IntervalCfg :=
  if range = "1D" then ⟨1, "minute", 1⟩
  else if range = "1W" then ⟨15, "minute", 7⟩
  else if range = "1M" then ⟨1, "day", 30⟩
  else if range = "6M" then ⟨1, "day", 180⟩
  else if range = "1Y" then ⟨1, "day", 365⟩
  else if range = "ALL" then ⟨1, "day", 1825⟩
  else ⟨1, "minute", 1⟩

/-- `const range = (req.query.range || "1D").toUpperCase();` followed by the
table lookup. -/
def chartRangeCfg (rangeQ : Option String) : IntervalCfg :=
  POLYGON_INTERVALS (jsToUpper (jsOrStr rangeQ "1D"))

/-- Milliseconds per day, as in `from * 24 * 60 * 60 * 1000`. -/
def dayMs : Int := 24 * 60 * 60 * 1000

/-- The calendar-date part of `new Date(t).toISOString()` — the UTC day
number, i.e. the floor of `t / 86400000` (`t` in ms since the epoch). -/
def calendarDay (t : Int) : Int := t.fdiv dayMs

/-- The `from`/`to` calendar dates embedded in the upstream aggregates URL:
`to` is now, `from` is now minus `fromDays` days, both truncated to their
ISO date part. -/
def chartFromTo (now : Int) (rangeQ : Option String) : Int × Int :=
  (calendarDay (now - (chartRangeCfg rangeQ).fromDays * dayMs), calendarDay now)

/-- Outcome of the chart endpoint, with the number of upstream calls the
handler issued. -/
structure ChartOut where
  status : Nat
  bars : List Bar
  upstreamCalls : Nat
deriving DecidableEq, Repr

/-- The `GET /api/chart/:symbol` handler: no symbol validation at all — the
aggregates request is issued for every symbol string; an absent or empty
`results` array yields `[]` with 200; a rejected request yields 500. -/
def chartHandler (_symbol : String) (_rangeQ : Option String)
    (upstream : Except (Option Nat) (Option (List Bar))) : ChartOut :=
  match upstream with
  | .error _ => ⟨500, [], 1⟩
  | .ok results =>
    match results with
    | none => ⟨200, [], 1⟩
    | some [] => ⟨200, [], 1⟩
    | some bars => ⟨200, bars, 1⟩

/-! ## Mover lists (top-gainers, top-losers, most-active) -/

/-- One entry of the upstream `tickers` array used by the mover endpoints. -/
structure TickerSnap where
  ticker : String
  lastTrade_p : Option ℚ
  todaysChangePerc : Option ℚ
  day_v : Option ℚ
deriving DecidableEq, Repr

/-- One outward mover entry. -/
structure MoverEntry where
  symbol : String
  name : String
  price : ℚ
  changePercent : ℚ
  volume : ℚ
deriving DecidableEq, Repr

/-- The per-ticker mapping shared by the three mover endpoints. -/
def moverOf (t : TickerSnap) : MoverEntry :=
  { symbol := t.ticker
    name := t.ticker
    price := t.lastTrade_p.getD 0
    changePercent := t.todaysChangePerc.getD 0
    volume := t.day_v.getD 0 }

/-- The ordering of `.sort((a, b) => b.volume - a.volume)`: descending by
volume. -/
def volGE (a b : MoverEntry) : Prop := b.volume ≤ a.volume

instance : DecidableRel volGE := fun a b => inferInstanceAs (Decidable (b.volume ≤ a.volume))

instance : IsTotal MoverEntry volGE := ⟨fun a b => le_total b.volume a.volume⟩

instance : IsTrans MoverEntry volGE := ⟨fun _ _ _ h1 h2 => le_trans h2 h1⟩

/-- `GET /api/top-gainers` (and identically `/api/top-losers`): map the
upstream page and `slice(0, 5)`. -/
def topGainers (ts : List TickerSnap) : List MoverEntry :=
  (ts.map moverOf).take 5

/-- `GET /api/most-active`: map the upstream page, sort by volume
descending, `slice(0, 7)`.  The JavaScript array sort is modelled as
insertion sort under the comparator's ordering. -/
def mostActive (ts : List TickerSnap) : List MoverEntry :=
  (List.insertionSort volGE (ts.map moverOf)).take 7

/-! ## Rate limiter (`app.use('/api', apiLimiter)`) -/

/-- The `rateLimit({...})` configuration object of `apiLimiter`. -/
structure LimiterCfg where
  windowMs : Nat
  maxReq : Nat
  message : String
  standardHeaders : Bool
  legacyHeaders : Bool
deriving DecidableEq, Repr

/-- The configuration passed to `rateLimit` in the source (`max: 500`,
`windowMs: 10 * 60 * 1000`, standard headers on, legacy headers off). -/
def apiLimiter : LimiterCfg :=
  { windowMs := 10 * 60 * 1000
    maxReq := 500
    message := "🚫 Too many requests from this IP. Please try again later."
    standardHeaders := true
    legacyHeaders := false }

/-- The path prefix the limiter is mounted on: `app.use('/api', apiLimiter)`.
Stated over the character lists of the two strings. -/
def limiterAppliesTo (path : String) : Bool := "/api".data.isPrefixOf path.data

/-- Per-IP counter state of a fixed-window limiter. -/
structure LimState where
  windowStart : Nat
  hits : Nat
deriving DecidableEq, Repr

/-- Decision for one request: served (passed to the route handler), or
rejected with a status, the configured message, and the configured header
switches. -/
structure LimDecision where
  served : Bool
  status : Nat
  message : Option String
  standardHeaders : Bool
  legacyHeaders : Bool
deriving DecidableEq, Repr

/-- Modelled from the spec: the fixed-window semantics of the
`express-rate-limit` middleware (the library itself is an external
dependency, not part of `src/`).  A request at time `t` first resets the
per-IP counter when the window has elapsed, then increments it; a count above
`maxReq` is rejected with 429 and the static message, otherwise the request
is served.  Standard rate-limit headers follow the configuration switches. -/
def limStep (cfg : LimiterCfg) (st : LimState) (t : Nat) :
    LimState × LimDecision :=
  let st' : LimState :=
    if st.windowStart + cfg.windowMs ≤ t then ⟨t, 0⟩ else st
  let st'' : LimState := ⟨st'.windowStart, st'.hits + 1⟩
  if st''.hits > cfg.maxReq then
    (st'', ⟨false, 429, some cfg.message, cfg.standardHeaders, cfg.legacyHeaders⟩)
  else
    (st'', ⟨true, 200, none, cfg.standardHeaders, cfg.legacyHeaders⟩)

/-- Run the limiter over a sequence of request times from a given state,
collecting the decisions. -/
def limRun (cfg : LimiterCfg) (st : LimState) : List Nat → List LimDecision
  | [] => []
  | t :: ts =>
    let (st', d) := limStep cfg st t
    d :: limRun cfg st' ts

/-! ## GET /api/market-status -/

/-- `status: result.data.market === "open" ? "OPEN" : "CLOSED"`. -/
def marketStatusOf (market : Option String) : String :=
  if market = some "open" then "OPEN" else "CLOSED"

/-! ## Spec-side comparison definition and concrete sample inputs -/

/-- Follows the spec's words, for comparison with the code's selection
chains: "first non-null source wins" with a final numeric default — the
daily-bar value whenever it is present (a present `0` included), else the
minute-bar value whenever present, else `0`. -/
def specFirstNonNull (dayField minField : Option ℚ) : ℚ :=
  match dayField with
  | some x => x
  | none => minField.getD 0

/-- `Except.isOk` as a plain boolean, for stating which upstream sub-requests
succeeded. -/
def exceptOk {ε α : Type} : Except ε α → Bool
  | .ok _ => true
  | .error _ => false

/-- A sample AI environment whose answer is noisy text, not one of the three
sentiment words. -/
def noisyAI : String → Except Unit (Option String) := fun _ => .ok (some "Positive!")

/-- A sample AI environment whose call always rejects. -/
def failAI : String → Except Unit (Option String) := fun _ => .error ()

/-- A sample news article. -/
def sampleArticle : Article :=
  { title := "Markets rally on earnings"
    article_url := "https://example.com/a"
    published_utc := some "2025-01-02T00:00:00Z"
    publisher_name := some "Newswire" }

/-- A sector-snapshot environment in which exactly one of the five
sub-requests (the XLV one) fails. -/
def oneFailFetch : String → Except (Option Nat) (Option ℚ) :=
  fun s => if s = "XLV" then .error (some 500) else .ok (some 1)

/-- A sector-snapshot environment in which every sub-request succeeds. -/
def allOkFetch : String → Except (Option Nat) (Option ℚ) :=
  fun _ => .ok (some 2)

/-- A successful chart upstream response with one bar. -/
def okChartUpstream : Except (Option Nat) (Option (List Bar)) :=
  .ok (some [⟨some 1, some 2, some 1, some 2, some 3⟩])

/-- A snapshot whose daily bar has a present open of `0` while the minute bar
has open `5`. -/
def zeroOpenSnap : Snapshot :=
  { ticker := some "AAPL"
    day := some ⟨some 0, some 2, some 1, some 2, some 5⟩
    min := some ⟨some 5, some 6, some 4, some 6, some 7⟩
    prevDay := none
    todaysChange := none
    todaysChangePerc := none }

/-- A snapshot whose upstream ticker field is lowercase. -/
def lowerTickerSnap : Snapshot :=
  { ticker := some "aapl"
    day := none
    min := none
    prevDay := none
    todaysChange := some 1
    todaysChangePerc := some 1 }

/-- A snapshot with an uppercase ticker echoing a request for `aApL`. -/
def echoSnap : Snapshot :=
  { ticker := some "AAPL"
    day := some ⟨some 1, some 2, some 1, some 2, some 5⟩
    min := none
    prevDay := none
    todaysChange := some 1
    todaysChangePerc := some 1 }

/-- Two sample upstream mover tickers with volumes 2 and 9. -/
def tickA : TickerSnap := ⟨"AAA", some 10, some 1, some 2⟩

def tickB : TickerSnap := ⟨"BBB", some 20, some 2, some 9⟩

/-- The limiter configuration of the spec's rate-limit example: the same
configuration as `apiLimiter` with the cap set to 10 for the test. -/
def testLimiter : LimiterCfg := { apiLimiter with maxReq := 10 }

/-! # Theorems -/

/-- C10: For every successful GET /api/market-status response, the status
field is "OPEN" exactly when the upstream market flag equals "open" and
"CLOSED" in every other case; the enum value "UNKNOWN" is never produced. -/
theorem marketStatus_open_or_closed (m : Option String) :
    (marketStatusOf m = "OPEN" ↔ m = some "open") ∧
    (m ≠ some "open" → marketStatusOf m = "CLOSED") ∧
    marketStatusOf m ≠ "UNKNOWN" := by
  refine ⟨⟨?_, ?_⟩, ?_, ?_⟩
  · intro hOpen
    by_contra hm
    rw [marketStatusOf, if_neg hm] at hOpen
    exact absurd hOpen (by decide)
  · intro hm; rw [marketStatusOf, if_pos hm]
  · intro hm; rw [marketStatusOf, if_neg hm]
  · by_cases hm : m = some "open"
    · rw [marketStatusOf, if_pos hm]; decide
    · rw [marketStatusOf, if_neg hm]; decide

theorem marketStatus_witness :
    marketStatusOf (some "closed") = "CLOSED" ∧ marketStatusOf (some "open") = "OPEN" :=
  ⟨(marketStatus_open_or_closed (some "closed")).2.1 (by decide),
   (marketStatus_open_or_closed (some "open")).1.mpr rfl⟩

/-- C4 counterexample: in the quote handler's selection chain
`day.o || min.o || 0`, a present daily-bar value of `0` is **not** selected:
with `day.o = 0` and `min.o = 5` the handler picks `5`, while the spec's
"first non-null source wins" policy would pick `0`. -/
theorem quote_zero_daily_skipped :
    quoteOpen zeroOpenSnap = 5 ∧
    specFirstNonNull ((zeroOpenSnap.day.getD Bar.empty).o)
      ((zeroOpenSnap.min.getD Bar.empty).o) = 0 ∧
    quoteOpen zeroOpenSnap ≠
      specFirstNonNull ((zeroOpenSnap.day.getD Bar.empty).o)
        ((zeroOpenSnap.min.getD Bar.empty).o) := by
  decide

/-- C4 (amended): each numeric Quote field is selected by
first-*truthy*-source wins: the daily-bar value is used when it is non-null
and non-zero; a daily value that is absent **or 0** is skipped in favour of
the minute-bar chain, with final default 0. -/
theorem quote_fields_first_truthy :
    (∀ (a : Option ℚ) (b : ℚ),
      (∀ x : ℚ, a = some x → x ≠ 0 → jsOrQ a b = x) ∧
      (a = none ∨ a = some 0 → jsOrQ a b = b)) ∧
    (∀ s : Snapshot,
      quoteOpen s = jsOrQ (s.day.getD Bar.empty).o (jsOrQ (s.min.getD Bar.empty).o 0) ∧
      quoteHigh s = jsOrQ (s.day.getD Bar.empty).h (jsOrQ (s.min.getD Bar.empty).h 0) ∧
      quoteLow s = jsOrQ (s.day.getD Bar.empty).l (jsOrQ (s.min.getD Bar.empty).l 0) ∧
      quoteClose s = jsOrQ (s.day.getD Bar.empty).c (jsOrQ (s.min.getD Bar.empty).c 0) ∧
      quoteVolume s = jsOrQ (s.day.getD Bar.empty).v (jsOrQ (s.min.getD Bar.empty).v 0)) := by
  refine ⟨fun a b => ⟨?_, ?_⟩, fun s => ⟨rfl, rfl, rfl, rfl, rfl⟩⟩
  · rintro x rfl hx
    simp [jsOrQ, hx]
  · rintro (rfl | rfl) <;> simp [jsOrQ]

theorem quote_fields_first_truthy_witness :
    jsOrQ (some 3) 5 = 3 ∧ jsOrQ (some 0) 5 = 5 ∧ jsOrQ none 5 = 5 :=
  ⟨(quote_fields_first_truthy.1 (some 3) 5).1 3 rfl (by decide),
   (quote_fields_first_truthy.1 (some 0) 5).2 (Or.inr rfl),
   (quote_fields_first_truthy.1 none 5).2 (Or.inl rfl)⟩

/-- C1 counterexample: an AI response of "Positive!" (not an exact match of
the three sentiment words) is returned verbatim by the news handlers, not
coerced to "Neutral"; the returned sentiment is outside the claimed enum. -/
theorem sentiment_noisy_text_returned_verbatim :
    (analyzeArticle noisyAI sampleArticle).sentiment = "Positive!" ∧
    (analyzeArticle noisyAI sampleArticle).sentiment ∉
      (["Positive", "Negative", "Neutral"] : List String) ∧
    (newsHandler (.ok [sampleArticle]) noisyAI).status = 200 ∧
    (newsHandler (.ok [sampleArticle]) noisyAI).items.map NewsItem.sentiment =
      ["Positive!"] := by
  decide

/-- C1 (amended): the sentiment field of a returned NewsItem is the trimmed
AI response text whenever that trim is non-empty — returned verbatim even
when it is not one of Positive/Negative/Neutral — and is "Neutral" exactly
when the AI call fails, produces no text, or produces only whitespace. -/
theorem sentiment_trimmed_verbatim_or_neutral
    (ai : String → Except Unit (Option String)) (a : Article) :
    ((analyzeArticle ai a).sentiment = sentimentOf (ai a.title)) ∧
    (∀ t : String, ai a.title = .ok (some t) → jsTrim t ≠ "" →
      (analyzeArticle ai a).sentiment = jsTrim t) ∧
    (∀ t : String, ai a.title = .ok (some t) → jsTrim t = "" →
      (analyzeArticle ai a).sentiment = "Neutral") ∧
    (ai a.title = .ok none → (analyzeArticle ai a).sentiment = "Neutral") ∧
    (∀ e : Unit, ai a.title = .error e → (analyzeArticle ai a).sentiment = "Neutral") := by
  refine ⟨rfl, ?_, ?_, ?_, ?_⟩
  · intro t ht hne
    simp [analyzeArticle, sentimentOf, ht, hne]
  · intro t ht he
    simp [analyzeArticle, sentimentOf, ht, he]
  · intro h
    simp [analyzeArticle, sentimentOf, h]
  · intro e h
    simp [analyzeArticle, sentimentOf, h]

theorem sentiment_trimmed_verbatim_witness :
    (analyzeArticle noisyAI sampleArticle).sentiment = "Positive!" ∧
    (analyzeArticle failAI sampleArticle).sentiment = "Neutral" :=
  ⟨((sentiment_trimmed_verbatim_or_neutral noisyAI sampleArticle).2.1 "Positive!" rfl
      (by decide)).trans (by decide),
   (sentiment_trimmed_verbatim_or_neutral failAI sampleArticle).2.2.2.2 () rfl⟩

/-- C3 counterexample: GET /api/chart/:symbol carries a symbol path parameter
but performs no validation: for the non-alphanumeric symbol "!!!" it does not
return 400 and it still issues its upstream call. -/
theorem chart_unvalidated_symbol_still_calls_upstream :
    validateSymbol "!!!" = false ∧
    (chartHandler "!!!" (some "1D") okChartUpstream).status = 200 ∧
    (chartHandler "!!!" (some "1D") okChartUpstream).status ≠ 400 ∧
    (chartHandler "!!!" (some "1D") okChartUpstream).upstreamCalls = 1 := by
  decide

/-- C3 (amended): only GET /api/quote/:symbol validates its symbol — a
symbol that is not alphanumeric of length 1–10 yields 400 with the first
validation failure's message and no upstream call is made; that first
message is express-validator's default "Invalid value" when the symbol is
not alphanumeric (the `isAlphanumeric` validator carries no `withMessage`),
and "Invalid stock symbol" (the `withMessage` attached to `isLength`) when
it is alphanumeric but of invalid length.  The other symbol-carrying routes
(chart, news, suggest) validate nothing: the chart handler issues its
upstream request for every symbol string and never returns 400. -/
theorem symbol_validation_only_on_quote :
    (∀ (s : String) (snap : Except (Option Nat) (Option Snapshot))
        (meta : Except (Option Nat) Unit),
      validateSymbol s = false →
      (quoteHandler s snap meta).status = 400 ∧
      (quoteHandler s snap meta).errorMsg = firstValidationMsg s ∧
      (quoteHandler s snap meta).upstreamCalls = 0) ∧
    (∀ s : String, isAlphanumericStr s = false →
      firstValidationMsg s = some defaultValidatorMsg) ∧
    (∀ s : String, isAlphanumericStr s = true → validateSymbol s = false →
      firstValidationMsg s = some invalidSymbolMsg) ∧
    (∀ s : String, validateSymbol s = true ↔ firstValidationMsg s = none) ∧
    (∀ (s : String) (q : Option String) (up : Except (Option Nat) (Option (List Bar))),
      (chartHandler s q up).upstreamCalls = 1 ∧ (chartHandler s q up).status ≠ 400) := by
  refine ⟨?_, ?_, ?_, ?_, ?_⟩
  · intro s snap meta hv
    refine ⟨?_, ?_, ?_⟩ <;> simp [quoteHandler, hv]
  · intro s ha
    simp [firstValidationMsg, ha]
  · intro s ha hv
    simp only [validateSymbol, ha, Bool.true_and] at hv
    simp [firstValidationMsg, ha, hv]
  · intro s
    by_cases ha : isAlphanumericStr s = true <;>
      by_cases h1 : 1 ≤ s.length <;>
        by_cases h2 : s.length ≤ 10 <;>
          simp [validateSymbol, firstValidationMsg, ha, h1, h2, Bool.not_eq_true]
  · intro s q up
    constructor
    · cases up with
      | error e => rfl
      | ok results =>
        cases results with
        | none => rfl
        | some bars => cases bars <;> rfl
    · cases up with
      | error e => simp [chartHandler]
      | ok results =>
        cases results with
        | none => simp [chartHandler]
        | some bars => cases bars <;> simp [chartHandler]

theorem symbol_validation_only_on_quote_witness :
    (quoteHandler "BAD SYMBOL" (.ok (some zeroOpenSnap)) (.ok ())).status = 400 ∧
    (quoteHandler "BAD SYMBOL" (.ok (some zeroOpenSnap)) (.ok ())).errorMsg =
      some "Invalid value" ∧
    (quoteHandler "ABCDEFGHIJK" (.ok (some zeroOpenSnap)) (.ok ())).errorMsg =
      some "Invalid stock symbol" ∧
    (quoteHandler "BAD SYMBOL" (.ok (some zeroOpenSnap)) (.ok ())).upstreamCalls = 0 ∧
    (chartHandler "BAD SYMBOL" none okChartUpstream).upstreamCalls = 1 :=
  ⟨(symbol_validation_only_on_quote.1 "BAD SYMBOL" (.ok (some zeroOpenSnap)) (.ok ())
      (by decide)).1,
   ((symbol_validation_only_on_quote.1 "BAD SYMBOL" (.ok (some zeroOpenSnap)) (.ok ())
      (by decide)).2.1).trans (by decide),
   ((symbol_validation_only_on_quote.1 "ABCDEFGHIJK" (.ok (some zeroOpenSnap)) (.ok ())
      (by decide)).2.1).trans (by decide),
   (symbol_validation_only_on_quote.1 "BAD SYMBOL" (.ok (some zeroOpenSnap)) (.ok ())
      (by decide)).2.2,
   (symbol_validation_only_on_quote.2.2.2.2 "BAD SYMBOL" none okChartUpstream).1⟩

/-- C7 counterexample: the quote handler returns `snapshot.ticker` verbatim;
when the upstream ticker field is lowercase ("aapl"), the returned symbol is
"aapl", not the upstream ticker uppercased. -/
theorem quote_symbol_lowercase_counterexample :
    (quoteHandler "aapl" (.ok (some lowerTickerSnap)) (.ok ())).status = 200 ∧
    (quoteHandler "aapl" (.ok (some lowerTickerSnap)) (.ok ())).symbol = some "aapl" ∧
    (quoteHandler "aapl" (.ok (some lowerTickerSnap)) (.ok ())).symbol ≠
      some (jsToUpper "aapl") := by
  decide

/-- C7 (amended): a successful GET /api/quote/S returns the upstream
snapshot's ticker field verbatim as its symbol (no uppercasing is applied on
the way out); the upstream request itself is issued for S uppercased, so
whenever upstream echoes the requested ticker the returned symbol equals S
uppercased, regardless of the input's letter case. -/
theorem quote_symbol_verbatim_echo (sy : String) (snapshot : Snapshot) :
    (quoteRequestTicker sy = jsToUpper sy) ∧
    (validateSymbol sy = true → snapshot.keyCount ≠ 0 →
      (quoteHandler sy (.ok (some snapshot)) (.ok ())).symbol = snapshot.ticker) ∧
    (validateSymbol sy = true → snapshot.keyCount ≠ 0 →
      snapshot.ticker = some (quoteRequestTicker sy) →
      (quoteHandler sy (.ok (some snapshot)) (.ok ())).symbol = some (jsToUpper sy)) := by
  refine ⟨rfl, ?_, ?_⟩
  · intro hv hk
    simp [quoteHandler, hv, hk]
  · intro hv hk ht
    simp [quoteHandler, hv, hk, ht, quoteRequestTicker]

theorem quote_symbol_echo_witness :
    (quoteHandler "aApL" (.ok (some echoSnap)) (.ok ())).symbol =
      some (jsToUpper "aApL") :=
  (quote_symbol_verbatim_echo "aApL" echoSnap).2.2 (by decide) (by decide) (by decide)

/-- The `Promise.all` join of the sectors handler succeeds exactly when every
per-ETF sub-request succeeds. -/
theorem collectSectors_ok_iff (fetch : String → Except (Option Nat) (Option ℚ)) :
    ∀ l : List (String × String),
      exceptOk (collectSectors fetch l) = true ↔
        ∀ e ∈ l, exceptOk (fetch e.2) = true := by
  intro l
  induction l with
  | nil => simp [collectSectors, exceptOk]
  | cons hd tl ih =>
    obtain ⟨name, sym⟩ := hd
    rw [List.forall_mem_cons, ← ih]
    cases hf : fetch sym with
    | error e => simp [collectSectors, hf, exceptOk]
    | ok cp =>
      cases hc : collectSectors fetch tl with
      | error e => simp [collectSectors, hf, hc, exceptOk]
      | ok others => simp [collectSectors, hf, hc, exceptOk]

/-- C2 counterexample: in GET /api/sectors the failure of a single sub-request
(the XLV snapshot) is **not** caught at the sub-task boundary: it rejects the
whole join and the response is 500, although the four sibling sub-requests
all succeed. -/
theorem sectors_single_failure_rejects_batch :
    (sectorsHandler oneFailFetch).status = 500 ∧
    exceptOk (oneFailFetch "XLV") = false ∧
    (∀ e ∈ sectorETFs, e.2 ≠ "XLV" → exceptOk (oneFailFetch e.2) = true) := by
  decide

/-- C2 (amended): per-headline sentiment failures in the news endpoints are
caught at the sub-task boundary and replaced with the "Neutral" fallback, so
the aggregate news response is still 200; but in GET /api/sectors the
sub-requests carry no per-task catch: the endpoint returns 200 exactly when
every ETF snapshot sub-request succeeds, and any single failure rejects the
join, yielding 500. -/
theorem batch_isolation_news_but_not_sectors :
    (∀ (ai : String → Except Unit (Option String)) (articles : List Article),
      articles ≠ [] →
      (newsHandler (.ok articles) ai).status = 200 ∧
      (newsHandler (.ok articles) ai).items = articles.map (analyzeArticle ai)) ∧
    (∀ fetch : String → Except (Option Nat) (Option ℚ),
      ((sectorsHandler fetch).status = 200 ↔
        ∀ e ∈ sectorETFs, exceptOk (fetch e.2) = true) ∧
      ((sectorsHandler fetch).status = 200 ∨ (sectorsHandler fetch).status = 500)) := by
  constructor
  · intro ai articles ha
    cases articles with
    | nil => exact absurd rfl ha
    | cons a rest => exact ⟨rfl, rfl⟩
  · intro fetch
    constructor
    · rw [← collectSectors_ok_iff fetch sectorETFs]
      unfold sectorsHandler
      cases hc : collectSectors fetch sectorETFs <;> simp [exceptOk]
    · unfold sectorsHandler
      cases hc : collectSectors fetch sectorETFs <;> simp

theorem batch_isolation_witness :
    (newsHandler (.ok [sampleArticle]) failAI).status = 200 ∧
    (sectorsHandler allOkFetch).status = 200 :=
  ⟨(batch_isolation_news_but_not_sectors.1 failAI [sampleArticle] (by decide)).1,
   (batch_isolation_news_but_not_sectors.2 allOkFetch).1.mpr (by decide)⟩

/-- Subtracting a whole number of days from an epoch-millisecond instant
shifts its calendar date by exactly that number of days. -/
theorem calendarDay_sub_days (t : Int) (n : Nat) :
    calendarDay (t - n * dayMs) = calendarDay t - n := by
  unfold calendarDay dayMs
  rw [Int.fdiv_eq_ediv _ (by norm_num), Int.fdiv_eq_ediv _ (by norm_num)]
  rw [sub_eq_add_neg, ← neg_mul,
    Int.add_mul_ediv_right _ _ (by norm_num : (24 * 60 * 60 * 1000 : Int) ≠ 0)]
  ring

/-- C5: GET /api/chart/:symbol maps the range case-insensitively through the
fixed table (1D→1/minute/1, 1W→15/minute/7, 1M→1/day/30, 6M→1/day/180,
1Y→1/day/365, ALL→1/day/1825), falls back to the 1D configuration for any
unrecognized range (and for an absent one), and computes from/to as calendar
dates with the from date exactly lookback-days before the to date. -/
theorem chart_range_table_and_dates :
    (chartRangeCfg (some "1D") = ⟨1, "minute", 1⟩ ∧
      chartRangeCfg (some "1d") = ⟨1, "minute", 1⟩ ∧
      chartRangeCfg (some "1W") = ⟨15, "minute", 7⟩ ∧
      chartRangeCfg (some "1w") = ⟨15, "minute", 7⟩ ∧
      chartRangeCfg (some "1M") = ⟨1, "day", 30⟩ ∧
      chartRangeCfg (some "1m") = ⟨1, "day", 30⟩ ∧
      chartRangeCfg (some "6M") = ⟨1, "day", 180⟩ ∧
      chartRangeCfg (some "6m") = ⟨1, "day", 180⟩ ∧
      chartRangeCfg (some "1Y") = ⟨1, "day", 365⟩ ∧
      chartRangeCfg (some "1y") = ⟨1, "day", 365⟩ ∧
      chartRangeCfg (some "ALL") = ⟨1, "day", 1825⟩ ∧
      chartRangeCfg (some "all") = ⟨1, "day", 1825⟩ ∧
      chartRangeCfg none = ⟨1, "minute", 1⟩) ∧
    (∀ r : String, r ∉ (["1D", "1W", "1M", "6M", "1Y", "ALL"] : List String) →
      POLYGON_INTERVALS r = POLYGON_INTERVALS "1D") ∧
    (∀ (now : Int) (q : Option String),
      (chartFromTo now q).1 = (chartFromTo now q).2 - (chartRangeCfg q).fromDays) := by
  refine ⟨by decide, ?_, ?_⟩
  · intro r hr
    simp only [List.mem_cons, List.mem_singleton, not_or] at hr
    obtain ⟨h1, h2, h3, h4, h5, h6⟩ := hr
    simp [POLYGON_INTERVALS, h1, h2, h3, h4, h5, h6]
  · intro now q
    simp only [chartFromTo]
    exact calendarDay_sub_days now (chartRangeCfg q).fromDays

theorem chart_range_witness :
    POLYGON_INTERVALS "2D" = POLYGON_INTERVALS "1D" ∧
    (chartFromTo 1000000000 (some "1W")).1 =
      (chartFromTo 1000000000 (some "1W")).2 - (chartRangeCfg (some "1W")).fromDays :=
  ⟨chart_range_table_and_dates.2.1 "2D" (by decide),
   chart_range_table_and_dates.2.2 1000000000 (some "1W")⟩

/-- C8: GET /api/quote/:symbol returns 404 when the upstream snapshot is
absent or empty or when an upstream call rejects with HTTP status 404, and
500 for every other upstream failure. -/
theorem quote_404_and_500_taxonomy (s : String) (hv : validateSymbol s = true) :
    ((quoteHandler s (.ok none) (.ok ())).status = 404) ∧
    (∀ snapshot : Snapshot, snapshot.keyCount = 0 →
      (quoteHandler s (.ok (some snapshot)) (.ok ())).status = 404) ∧
    (∀ meta : Except (Option Nat) Unit,
      (quoteHandler s (.error (some 404)) meta).status = 404) ∧
    (∀ (e : Option Nat) (meta : Except (Option Nat) Unit), e ≠ some 404 →
      (quoteHandler s (.error e) meta).status = 500) ∧
    (∀ snapData : Option Snapshot,
      (quoteHandler s (.ok snapData) (.error (some 404))).status = 404) ∧
    (∀ (snapData : Option Snapshot) (e : Option Nat), e ≠ some 404 →
      (quoteHandler s (.ok snapData) (.error e)).status = 500) := by
  refine ⟨?_, ?_, ?_, ?_, ?_, ?_⟩
  · simp [quoteHandler, hv]
  · intro snapshot hk
    simp [quoteHandler, hv, hk]
  · intro meta
    simp [quoteHandler, hv, catchStatus]
  · intro e meta he
    simp [quoteHandler, hv, catchStatus, he]
  · intro snapData
    simp [quoteHandler, hv, catchStatus]
  · intro snapData e he
    simp [quoteHandler, hv, catchStatus, he]

theorem quote_404_witness :
    (quoteHandler "AAPL" (.ok none) (.ok ())).status = 404 ∧
    (quoteHandler "AAPL" (.error (some 500)) (.ok ())).status = 500 :=
  ⟨(quote_404_and_500_taxonomy "AAPL" (by decide)).1,
   (quote_404_and_500_taxonomy "AAPL" (by decide)).2.2.2.1 (some 500) (.ok ()) (by decide)⟩

/-- C6: GET /api/most-active returns the upstream page re-sorted by volume
descending and truncated to at most 7 entries, each taken from the mapped
upstream page; GET /api/top-gainers (and identically /api/top-losers)
returns at most 5 entries, in upstream order. -/
theorem movers_sorted_truncated :
    (∀ ts : List TickerSnap,
      (mostActive ts).length ≤ 7 ∧
      (mostActive ts).Sorted volGE ∧
      (∀ m ∈ mostActive ts, m ∈ ts.map moverOf)) ∧
    (∀ ts : List TickerSnap,
      (topGainers ts).length ≤ 5 ∧
      (∀ i : Nat, i < (topGainers ts).length →
        (topGainers ts).get? i = (ts.map moverOf).get? i)) := by
  constructor
  · intro ts
    refine ⟨List.length_take_le 7 _, ?_, ?_⟩
    · exact List.Pairwise.sublist (List.take_sublist _ _)
        (List.sorted_insertionSort volGE (ts.map moverOf))
    · intro m hm
      exact (List.perm_insertionSort volGE (ts.map moverOf)).subset
        (List.mem_of_mem_take hm)
  · intro ts
    refine ⟨List.length_take_le 5 _, ?_⟩
    intro i hi
    have h5 : i < 5 := lt_of_lt_of_le hi (List.length_take_le 5 _)
    rw [List.get?_eq_getElem?, List.get?_eq_getElem?]
    exact List.getElem?_take_of_lt h5

theorem movers_witness :
    (mostActive [tickA, tickB]).length ≤ 7 ∧
    moverOf tickB ∈ [tickA, tickB].map moverOf ∧
    (topGainers [tickA, tickB]).get? 0 = ([tickA, tickB].map moverOf).get? 0 :=
  ⟨(movers_sorted_truncated.1 [tickA, tickB]).1,
   (movers_sorted_truncated.1 [tickA, tickB]).2.2 (moverOf tickB) (by decide),
   (movers_sorted_truncated.2 [tickA, tickB]).2 0 (by decide)⟩

/-- Within one fixed window (every request time strictly before
`windowStart + windowMs`), the i-th request from a fresh counter is served
exactly when its running count `k + i + 1` is within the cap, and rejected
with 429 and the configured message and header switches otherwise. -/
theorem limRun_decision (cfg : LimiterCfg) (t0 : Nat) :
    ∀ (ts : List Nat) (k i : Nat), (∀ t ∈ ts, t < t0 + cfg.windowMs) →
      i < ts.length →
      (limRun cfg ⟨t0, k⟩ ts).get? i =
        some (if cfg.maxReq < k + i + 1 then
                ⟨false, 429, some cfg.message, cfg.standardHeaders, cfg.legacyHeaders⟩
              else ⟨true, 200, none, cfg.standardHeaders, cfg.legacyHeaders⟩) := by
  intro ts
  induction ts with
  | nil => intro k i _ hi; exact absurd hi (by simp)
  | cons t ts ih =>
    intro k i h hi
    have ht : t < t0 + cfg.windowMs := h t (List.mem_cons_self _ _)
    have hreset : ¬ (t0 + cfg.windowMs ≤ t) := not_le.mpr ht
    have hrest : ∀ x ∈ ts, x < t0 + cfg.windowMs :=
      fun x hx => h x (List.mem_cons_of_mem _ hx)
    cases i with
    | zero =>
      simp only [limRun, limStep, hreset, if_false, ite_false, gt_iff_lt]
      by_cases hcap : cfg.maxReq < k + 1
      · simp [hcap]
      · simp [hcap]
    | succ j =>
      have hj : j < ts.length := by
        simpa using Nat.lt_of_succ_lt_succ hi
      have step : limRun cfg ⟨t0, k⟩ (t :: ts) =
          (limStep cfg ⟨t0, k⟩ t).2 :: limRun cfg (limStep cfg ⟨t0, k⟩ t).1 ts := rfl
      have hstate : (limStep cfg ⟨t0, k⟩ t).1 = ⟨t0, k + 1⟩ := by
        simp only [limStep, hreset, ite_false, if_false]
        by_cases hcap : cfg.maxReq < k + 1 <;> simp [hcap]
      rw [step, hstate, List.get?_cons_succ, ih (k + 1) j hrest hj]
      have harith : k + 1 + j + 1 = k + (j + 1) + 1 := by omega
      rw [harith]

/-- C9: all routes under the /api prefix share one rate limiter, configured
with a fixed 10-minute window, a cap of 500 requests, the standard rate-limit
headers enabled and the legacy headers suppressed; within one window (for any
configured cap) every request up to the cap is served and every request
beyond the cap receives 429 with the static message. -/
theorem api_rate_limiter_contract :
    apiLimiter.windowMs = 10 * 60 * 1000 ∧
    apiLimiter.maxReq = 500 ∧
    apiLimiter.standardHeaders = true ∧
    apiLimiter.legacyHeaders = false ∧
    (∀ p : String, limiterAppliesTo ("/api" ++ p) = true) ∧
    (∀ (cfg : LimiterCfg) (t0 : Nat) (ts : List Nat) (i : Nat),
      (∀ t ∈ ts, t < t0 + cfg.windowMs) → i < ts.length →
      (limRun cfg ⟨t0, 0⟩ ts).get? i =
        some (if cfg.maxReq < i + 1 then
                ⟨false, 429, some cfg.message, cfg.standardHeaders, cfg.legacyHeaders⟩
              else ⟨true, 200, none, cfg.standardHeaders, cfg.legacyHeaders⟩)) := by
  refine ⟨rfl, rfl, rfl, rfl, ?_, ?_⟩
  · intro p
    simp [limiterAppliesTo, String.data_append, List.isPrefixOf]
  · intro cfg t0 ts i h hi
    have hd := limRun_decision cfg t0 ts 0 i h hi
    simpa using hd

theorem api_rate_limiter_witness :
    limiterAppliesTo ("/api" ++ "/quote/AAPL") = true ∧
    (limRun testLimiter ⟨0, 0⟩ (List.replicate 11 0)).get? 10 =
      some ⟨false, 429, some testLimiter.message, testLimiter.standardHeaders,
        testLimiter.legacyHeaders⟩ := by
  refine ⟨api_rate_limiter_contract.2.2.2.2.1 "/quote/AAPL", ?_⟩
  have hd := api_rate_limiter_contract.2.2.2.2.2 testLimiter 0 (List.replicate 11 0) 10
    (by decide) (by decide)
  simpa using hd

end StockAnalyzer
